import Mathlib

/-!
Shallow embedding of the AWS_CDK_PROJECT Django application:
`src/bulletproof_urls.py` (health check, bulletproof home view, defensive
route table) and
`src/Class_Based_Viewsapp/management/commands/populate_data.py` (the seeder).

Effectful Python code is embedded by making each fallible collaborator call
(an import, an ORM query, a directory listing, a record creation) an explicit
`Except` value threaded through the control flow, and the process-wide
`sys.path` an explicit list passed in and returned.
-/

/-- The Django model class `Comapny` (sic, the source spells it so):
fields `Name`, `ceo`, `origin`, `est_year`. -/
structure Comapny where
  Name : String
  ceo : String
  origin : String
  est_year : Nat
deriving DecidableEq

deriving instance DecidableEq for Except

namespace Command

/-- The literal `companies` fixture list of `populate_data.py` (lines 12-37). -/
def companies : List Comapny :=
  [⟨"Tech Innovations Inc", "John Smith", "Silicon Valley, USA", 2010⟩,
   ⟨"Global Solutions Ltd", "Sarah Johnson", "London, UK", 2015⟩,
   ⟨"Digital Dynamics Corp", "Michael Chen", "Tokyo, Japan", 2018⟩,
   ⟨"Future Systems", "Emily Davis", "Berlin, Germany", 2020⟩]

/-- The seeder `Command.handle` on the success path, as a transformer of the
company table state: `Comapny.objects.all().delete()` discards the incoming
table, then each fixture record is created (appended) in order. -/
def handle (_db : List Comapny) : List Comapny :=
  companies.foldl (fun db c => db ++ [c]) []

/-- The creation loop of `Command.handle` when each `Comapny.objects.create`
call may fail: the loop stops at the first failing create, returning the
storage error and the table as it stands at that point.  `create` receives
the index of the call (0-based) and the record. -/
def createLoop (create : Nat → Comapny → Except String Unit) :
    Nat → List Comapny → List Comapny → Except String Unit × List Comapny
  | _, [], db => (Except.ok (), db)
  | i, c :: rest, db =>
    match create i c with
    | Except.ok _ => createLoop create (i + 1) rest (db ++ [c])
    | Except.error e => (Except.error e, db)

/-- The seeder with fallible creates: delete everything, then run the
creation loop over the fixture list.  Returns the command outcome and the
final table state. -/
def handleFallible (_db : List Comapny)
    (create : Nat → Comapny → Except String Unit) :
    Except String Unit × List Comapny :=
  createLoop create 0 companies []

end Command

/-- An inbound HTTP request, reduced to what the handlers can observe. -/
structure Request where
  path : String
deriving DecidableEq

/-- A Django `HttpResponse`: status code and body text. -/
structure HttpResponse where
  status : Nat
  body : String
deriving DecidableEq

/-- A Django `JsonResponse`: status code and a flat string-to-string
JSON object payload. -/
structure JsonResponse where
  status : Nat
  payload : List (String × String)
deriving DecidableEq

/-- `health_check` (bulletproof_urls.py lines 7-8): a constant payload,
default status 200, ignoring the request entirely. -/
def health_check (_request : Request) : JsonResponse :=
  ⟨200, [("status", "healthy")]⟩

/-- Lines 16-17 of `home_view`: `sys.path.insert(0, '/app')` guarded by
a membership test. -/
def ensureAppPath (p : List String) : List String :=
  if "/app" ∈ p then p else "/app" :: p

/-- The outcomes of the fallible collaborator calls a single run of
`home_view` makes: the two imports, the ORM query, `os.getcwd()` (never
fails in this model) and `os.listdir` of the app root (line 37, may fail).
The `importViews` success value carries the imported `Allcompanies`
object, modelled as an opaque string the handler never consumes. -/
structure Env where
  syspath : List String
  importViews : Except String String
  importModels : Except String Unit
  query : Except String (List Comapny)
  cwd : String
  listdir : Except String (List String)

/-- The try-block primary path of `home_view` (lines 20-24): import the
`Allcompanies` view (binding it without using it), import the model, then
query all records. -/
def primaryPath (e : Env) : Except String (List Comapny) := do
  let _allcompanies ← e.importViews
  let _ ← e.importModels
  e.query

/-- One `<li>` item of the company list (line 27 f-string). -/
def companyItem (c : Comapny) : String :=
  "<li>" ++ c.Name ++ " - CEO: " ++ c.ceo ++ "</li>"

/-- The success-path HTML of `home_view` (lines 25-28): header, one list
item per record in order, closing tag. -/
def companyListHtml (cs : List Comapny) : String :=
  (cs.foldl (fun acc c => acc ++ companyItem c) "<h1>Companies</h1><ul>") ++ "</ul>"

/-- A rendering of a Python list of strings as it is interpolated into the
debug f-string. -/
def pyList (xs : List String) : String :=
  "[" ++ String.intercalate (", ") xs ++ "]"

/-- The fallback `debug_info` HTML of `home_view` (lines 32-38): the
exception text, the (already mutated) module search path, the current
working directory and the listing of the app root. -/
def debugBody (err : String) (path : List String) (cwd : String)
    (listing : List String) : String :=
  "\n        <h1>Django is running!</h1>\n        <p>Error: " ++ err ++
  "</p>\n        <p>Python path: " ++ pyList path ++
  "</p>\n        <p>Current directory: " ++ cwd ++
  "</p>\n        <p>Directory contents: " ++ pyList listing ++
  "</p>\n        "

/-- `home_view` (lines 11-39).  Returns the response outcome — `Except.error`
is an exception escaping the handler — paired with the `sys.path` after the
call.  The path mutation happens first inside the try block; on any
exception in the primary path the except block builds the debug page, whose
own `os.listdir` call is unguarded and propagates its failure. -/
def home_view (_request : Request) (e : Env) :
    Except String HttpResponse × List String :=
  let path := ensureAppPath e.syspath
  match primaryPath e with
  | Except.ok cs => (Except.ok ⟨200, companyListHtml cs⟩, path)
  | Except.error err =>
    match e.listdir with
    | Except.ok listing => (Except.ok ⟨200, debugBody err path e.cwd listing⟩, path)
    | Except.error lerr => (Except.error lerr, path)

/-- The handlers a route can dispatch to. -/
inductive Handler where
  | home
  | health
  | adminSite
  | companyApp
deriving DecidableEq

/-- One entry of `urlpatterns`: a path pattern and its handler. -/
structure Route where
  pattern : String
  handler : Handler
deriving DecidableEq

/-- The three unconditional routes of `urlpatterns` (lines 48-52). -/
def baseUrlpatterns : List Route :=
  [⟨"", Handler.home⟩, ⟨"health/", Handler.health⟩, ⟨"admin/", Handler.adminSite⟩]

/-- Lines 55-58: the `company/` sub-route is appended inside a
try/except-pass, so a failing `include` leaves the table at the base
routes. -/
def buildUrlpatterns (companyInclude : Except String Handler) : List Route :=
  match companyInclude with
  | Except.ok h => baseUrlpatterns ++ [⟨"company/", h⟩]
  | Except.error _ => baseUrlpatterns

/-- URL resolution over the table: the first route whose pattern equals the
request path; `none` is the framework 404. -/
def resolve (routes : List Route) (p : String) : Option Handler :=
  (routes.find? (fun r => r.pattern == p)).map Route.handler

/-- Substring containment: `t` occurs inside `s`. -/
def Contains (s t : String) : Prop := ∃ a b, s = a ++ (t ++ b)

/-- Whether an `Except` value is a success. -/
def exceptIsOk : Except String HttpResponse → Bool
  | Except.ok _ => true
  | Except.error _ => false

/-- Right-fold string concatenation, the shape `foldl` append produces. -/
def strJoin : List String → String
  | [] => ""
  | s :: rest => s ++ strJoin rest

/-- A request used to instantiate theorems at concrete inputs. -/
def reqHome : Request := ⟨"/"⟩

/-- A demonstration record for concrete instantiations. -/
def demoCompany : Comapny := ⟨"Acme Corp", "Ada Lovelace", "NYC, USA", 1999⟩

/-- An environment whose primary path succeeds with one record. -/
def envQueryOk : Env :=
  ⟨[], Except.ok ("views.Allcompanies"), Except.ok (),
   Except.ok [demoCompany], "/srv", Except.ok []⟩

/-- An environment whose query fails but whose directory listing works. -/
def envQueryFail : Env :=
  ⟨["/usr/lib/python3"], Except.ok ("views.Allcompanies"), Except.ok (),
   Except.error ("ProgrammingError: relation does not exist"), "/",
   Except.ok ["manage.py", "db.sqlite3"]⟩

/-- An environment whose query fails and whose directory listing also
fails. -/
def envQueryAndListdirFail : Env :=
  ⟨["/usr/lib/python3"], Except.ok ("views.Allcompanies"), Except.ok (),
   Except.error ("ProgrammingError: relation does not exist"), "/",
   Except.error ("FileNotFoundError: /app")⟩

/-- An environment whose primary path and directory listing both fail,
used for the fallback-propagation claim. -/
def envListdirFail : Env :=
  ⟨[], Except.ok ("views.Allcompanies"), Except.error ("ImportError: models"),
   Except.ok [], "/", Except.error ("OSError: too many open files")⟩

/- ------------------------------------------------------------------ -/
/- Helper lemmas.                                                     -/
/- ------------------------------------------------------------------ -/

theorem contains_append_self (a t : String) : Contains (a ++ t) t :=
  ⟨a, "", by rw [String.append_empty]⟩

theorem contains_prepend_self (t b : String) : Contains (t ++ b) t :=
  ⟨"", b, by rw [String.empty_append]⟩

theorem Contains.appendRight {s t : String} (h : Contains s t) (b : String) :
    Contains (s ++ b) t := by
  obtain ⟨x, y, rfl⟩ := h
  exact ⟨x, y ++ b, by simp [String.append_assoc]⟩

theorem Contains.appendLeft {s t : String} (h : Contains s t) (a : String) :
    Contains (a ++ s) t := by
  obtain ⟨x, y, rfl⟩ := h
  exact ⟨a ++ x, y, by simp [String.append_assoc]⟩

theorem Contains.trans {s t u : String} (h1 : Contains s t)
    (h2 : Contains t u) : Contains s u := by
  obtain ⟨a, b, rfl⟩ := h1
  obtain ⟨x, y, rfl⟩ := h2
  exact ⟨a ++ x, y ++ b, by simp [String.append_assoc]⟩

theorem foldl_append_eq (g : Comapny → String) :
    ∀ (cs : List Comapny) (init : String),
      cs.foldl (fun acc c => acc ++ g c) init = init ++ strJoin (cs.map g) := by
  intro cs
  induction cs with
  | nil => intro init; simp [strJoin, String.append_empty]
  | cons c rest ih =>
      intro init
      simp only [List.foldl_cons, List.map_cons, strJoin]
      rw [ih, String.append_assoc]

theorem strJoin_contains (g : Comapny → String) {c : Comapny} :
    ∀ {cs : List Comapny}, c ∈ cs → Contains (strJoin (cs.map g)) (g c) := by
  intro cs
  induction cs with
  | nil => intro h; cases h
  | cons x rest ih =>
      intro h
      rcases List.mem_cons.mp h with rfl | hrest
      · exact contains_prepend_self (g c) (strJoin (rest.map g))
      · exact (ih hrest).appendLeft (g x)

theorem companyListHtml_contains_item {c : Comapny} {cs : List Comapny}
    (h : c ∈ cs) : Contains (companyListHtml cs) (companyItem c) := by
  unfold companyListHtml
  rw [foldl_append_eq companyItem cs]
  exact (((strJoin_contains companyItem h).appendLeft _).appendRight _)

theorem companyItem_contains_name (c : Comapny) :
    Contains (companyItem c) c.Name := by
  unfold companyItem
  exact (((contains_append_self _ c.Name).appendRight _).appendRight _).appendRight _

theorem companyItem_contains_ceo (c : Comapny) :
    Contains (companyItem c) c.ceo := by
  unfold companyItem
  exact (contains_append_self _ c.ceo).appendRight _

theorem debugBody_contains (err : String) (path : List String) (cwd : String)
    (listing : List String) :
    Contains (debugBody err path cwd listing) err ∧
    Contains (debugBody err path cwd listing) (pyList path) ∧
    Contains (debugBody err path cwd listing) cwd ∧
    Contains (debugBody err path cwd listing) (pyList listing) := by
  unfold debugBody
  refine ⟨?_, ?_, ?_, ?_⟩
  · exact ((((((((contains_append_self _ err).appendRight _).appendRight
      _).appendRight _).appendRight _).appendRight _).appendRight _).appendRight _)
  · exact ((((((contains_append_self _ (pyList path)).appendRight _).appendRight
      _).appendRight _).appendRight _).appendRight _)
  · exact ((((contains_append_self _ cwd).appendRight _).appendRight
      _).appendRight _)
  · exact ((contains_append_self _ (pyList listing)).appendRight _)

theorem ensureAppPath_idem (p : List String) :
    ensureAppPath (ensureAppPath p) = ensureAppPath p := by
  by_cases h : ("/app") ∈ p
  · simp [ensureAppPath, h]
  · simp [ensureAppPath, h]

theorem home_view_snd (r : Request) (e : Env) :
    (home_view r e).2 = ensureAppPath e.syspath := by
  unfold home_view
  rcases primaryPath e with m | cs
  · rcases e.listdir with lerr | l <;> simp
  · simp

theorem createLoop_error (create : Nat → Comapny → Except String Unit)
    (msg : String) (xs : List Comapny) :
    ∀ (k j : Nat) (acc : List Comapny) (hk : k < xs.length),
      (∀ i (hi : i < xs.length), i < k → create (j + i) xs[i] = Except.ok ()) →
      create (j + k) xs[k] = Except.error msg →
      Command.createLoop create j xs acc = (Except.error msg, acc ++ xs.take k) := by
  induction xs with
  | nil => intro k j acc hk; exact absurd hk (by simp)
  | cons c rest ih =>
      intro k j acc hk hok hfail
      cases k with
      | zero =>
          have h0 : create j c = Except.error msg := by simpa using hfail
          simp [Command.createLoop, h0]
      | succ k =>
          have h0 : create j c = Except.ok () := by
            simpa using hok 0 (by simp) (Nat.succ_pos k)
          have harith : ∀ i : Nat, j + 1 + i = j + (i + 1) := by omega
          have ih' := ih k (j + 1) (acc ++ [c]) (by simpa using hk)
            (fun i hi hik => by
              have := hok (i + 1) (by simpa using hi) (Nat.succ_lt_succ hik)
              rw [harith i]
              simpa using this)
            (by rw [harith k]; simpa using hfail)
          simp [Command.createLoop, h0, ih']

/- ------------------------------------------------------------------ -/
/- Claim theorems.                                                    -/
/- ------------------------------------------------------------------ -/

/-- C1 counterexample: with the query failing AND `os.listdir` of the app
root failing, the primary path raises but `home_view` does not return any
200 response — the listdir exception escapes the handler.  So the claim as
stated (every primary-path exception yields a 200 debug page) is false. -/
theorem home_view_debug_needs_listdir_cex :
    primaryPath envQueryAndListdirFail =
      Except.error ("ProgrammingError: relation does not exist") ∧
    (home_view reqHome envQueryAndListdirFail).1 =
      Except.error ("FileNotFoundError: /app") ∧
    exceptIsOk (home_view reqHome envQueryAndListdirFail).1 = false := by
  refine ⟨rfl, rfl, rfl⟩

/-- C1 (amended): whenever the primary path raises and obtaining the
directory listing succeeds, `home_view` catches the exception and returns a
200 response whose body contains the exception text, the (mutated) module
search path, the current working directory and the directory listing. -/
theorem home_view_debug_on_primary_failure (r : Request) (e : Env)
    (m : String) (l : List String)
    (hp : primaryPath e = Except.error m)
    (hl : e.listdir = Except.ok l) :
    (home_view r e).1 =
      Except.ok ⟨200, debugBody m (ensureAppPath e.syspath) e.cwd l⟩ ∧
    Contains (debugBody m (ensureAppPath e.syspath) e.cwd l) m ∧
    Contains (debugBody m (ensureAppPath e.syspath) e.cwd l)
      (pyList (ensureAppPath e.syspath)) ∧
    Contains (debugBody m (ensureAppPath e.syspath) e.cwd l) e.cwd ∧
    Contains (debugBody m (ensureAppPath e.syspath) e.cwd l) (pyList l) := by
  have hd := debugBody_contains m (ensureAppPath e.syspath) e.cwd l
  refine ⟨?_, hd.1, hd.2.1, hd.2.2.1, hd.2.2.2⟩
  unfold home_view
  rw [hp, hl]

/-- C1 witness: the amended theorem instantiated at a concrete environment
whose query fails with a concrete error and whose listing succeeds. -/
theorem home_view_debug_on_primary_failure_witness :
    (home_view reqHome envQueryFail).1 =
      Except.ok ⟨200, debugBody ("ProgrammingError: relation does not exist")
        (ensureAppPath ["/usr/lib/python3"]) ("/")
        ["manage.py", "db.sqlite3"]⟩ ∧
    Contains (debugBody ("ProgrammingError: relation does not exist")
        (ensureAppPath ["/usr/lib/python3"]) ("/") ["manage.py", "db.sqlite3"])
      ("ProgrammingError: relation does not exist") :=
  have h := home_view_debug_on_primary_failure reqHome envQueryFail
    ("ProgrammingError: relation does not exist")
    ["manage.py", "db.sqlite3"] rfl rfl
  ⟨h.1, h.2.1⟩

/-- C2: one run of the seeder, from any initial table state, leaves exactly
the four literal fixture records (here even in their fixture order, which
subsumes any-order multiset equality). -/
theorem seeder_populates_exactly_fixture (db : List Comapny) :
    (Command.handle db).length = 4 ∧
    Command.handle db =
      [⟨"Tech Innovations Inc", "John Smith", "Silicon Valley, USA", 2010⟩,
       ⟨"Global Solutions Ltd", "Sarah Johnson", "London, UK", 2015⟩,
       ⟨"Digital Dynamics Corp", "Michael Chen", "Tokyo, Japan", 2018⟩,
       ⟨"Future Systems", "Emily Davis", "Berlin, Germany", 2020⟩] :=
  ⟨rfl, rfl⟩

/-- C3: seeding twice equals seeding once — each run deletes everything
first — so the table again holds exactly 4 records with no duplicates. -/
theorem seeder_idempotent (db : List Comapny) :
    Command.handle (Command.handle db) = Command.handle db ∧
    (Command.handle (Command.handle db)).length = 4 ∧
    (Command.handle (Command.handle db)).Nodup :=
  ⟨rfl, rfl, (by decide : (Command.handle ([] : List Comapny)).Nodup)⟩

/-- C4: when the primary path raises no exception, `home_view` returns a 200
response whose body is the unordered-list HTML built from the queried
records, and that body contains every record's name and CEO string. -/
theorem home_view_success_lists_companies (r : Request) (e : Env)
    (cs : List Comapny) (hp : primaryPath e = Except.ok cs) :
    (home_view r e).1 = Except.ok ⟨200, companyListHtml cs⟩ ∧
    ∀ c, c ∈ cs →
      Contains (companyListHtml cs) c.Name ∧
      Contains (companyListHtml cs) c.ceo := by
  constructor
  · unfold home_view
    rw [hp]
  · intro c hc
    exact ⟨(companyListHtml_contains_item hc).trans (companyItem_contains_name c),
           (companyListHtml_contains_item hc).trans (companyItem_contains_ceo c)⟩

/-- C4 witness: the success theorem instantiated at a concrete healthy
environment holding one record. -/
theorem home_view_success_lists_companies_witness :
    (home_view reqHome envQueryOk).1 =
      Except.ok ⟨200, companyListHtml [demoCompany]⟩ ∧
    Contains (companyListHtml [demoCompany]) ("Acme Corp") ∧
    Contains (companyListHtml [demoCompany]) ("Ada Lovelace") :=
  have h := home_view_success_lists_companies reqHome envQueryOk [demoCompany] rfl
  ⟨h.1, (h.2 demoCompany (by simp)).1, (h.2 demoCompany (by simp)).2⟩

/-- C5: the health endpoint returns exactly status 200 with payload
status: healthy, for every request, independent of everything (it takes no
state at all); any two requests get the same response. -/
theorem health_check_constant :
    (∀ r : Request, health_check r = ⟨200, [("status", "healthy")]⟩) ∧
    (∀ r₁ r₂ : Request, health_check r₁ = health_check r₂) :=
  ⟨fun _ => rfl, fun _ _ => rfl⟩

/-- C6: if the company include raises, the failure is discarded, the route
table is exactly the three base routes, and resolving company/ is a 404. -/
theorem route_table_degrades_on_include_failure (err : String) :
    buildUrlpatterns (Except.error err) = baseUrlpatterns ∧
    (buildUrlpatterns (Except.error err)).map Route.pattern =
      [(""), ("health/"), ("admin/")] ∧
    resolve (buildUrlpatterns (Except.error err)) ("company/") = none :=
  ⟨rfl,
   (by decide : baseUrlpatterns.map Route.pattern = [(""), ("health/"), ("admin/")]),
   (by decide : resolve baseUrlpatterns ("company/") = none)⟩

/-- C7: once the primary path has raised, the fallback branch propagates an
exception out of the handler exactly when `os.listdir` fails, and the
escaping exception is precisely the listdir error. -/
theorem home_view_fallback_raises_iff_listdir_fails (r : Request) (e : Env)
    (m : String) (hp : primaryPath e = Except.error m) :
    (∀ lerr, e.listdir = Except.error lerr →
      (home_view r e).1 = Except.error lerr) ∧
    ((∃ lerr, (home_view r e).1 = Except.error lerr) ↔
      (∃ lerr, e.listdir = Except.error lerr)) := by
  constructor
  · intro lerr hl
    unfold home_view
    rw [hp, hl]
  · rcases hld : e.listdir with lerr | l
    · simp [home_view, hp, hld]
    · simp [home_view, hp, hld]

/-- C7 witness: at a concrete environment with a failing import and failing
listdir, the handler propagates exactly the listdir error. -/
theorem home_view_fallback_raises_iff_listdir_fails_witness :
    (home_view reqHome envListdirFail).1 =
      Except.error ("OSError: too many open files") :=
  (home_view_fallback_raises_iff_listdir_fails reqHome envListdirFail
    ("ImportError: models") rfl).1 ("OSError: too many open files") rfl

/-- C8: `home_view` updates the search path exactly by `ensureAppPath`,
which adds /app (at the front) only when absent: the result always contains
/app, a path already containing /app is left unchanged, the mutation is
idempotent (any number of iterated calls equals one call), and the length
grows by at most one entry. -/
theorem home_view_syspath_idempotent (r : Request) (e : Env)
    (p : List String) (n : Nat) :
    (home_view r e).2 = ensureAppPath e.syspath ∧
    ("/app") ∈ ensureAppPath p ∧
    (("/app") ∈ p → ensureAppPath p = p) ∧
    ensureAppPath (ensureAppPath p) = ensureAppPath p ∧
    ensureAppPath^[n + 1] p = ensureAppPath p ∧
    (ensureAppPath p).length ≤ p.length + 1 := by
  refine ⟨home_view_snd r e, ?_, ?_, ensureAppPath_idem p, ?_, ?_⟩
  · by_cases h : ("/app") ∈ p <;> simp [ensureAppPath, h]
  · intro h; simp [ensureAppPath, h]
  · induction n with
    | zero => simp
    | succ n ihn =>
        rw [Function.iterate_succ_apply', ihn, ensureAppPath_idem]
  · by_cases h : ("/app") ∈ p <;> simp [ensureAppPath, h]

/-- C8 witness: the search-path theorem instantiated concretely; a path
already holding /app is unchanged, an empty path gains it. -/
theorem home_view_syspath_idempotent_witness :
    ensureAppPath ["/app"] = ["/app"] ∧
    ("/app") ∈ ensureAppPath ([] : List String) :=
  ⟨(home_view_syspath_idempotent reqHome envQueryOk ["/app"] 0).2.2.1 (by decide),
   (home_view_syspath_idempotent reqHome envQueryOk ([] : List String) 0).2.1⟩

/-- C9: if the creates succeed up to index k and the k-th (0-based) create
fails, the whole seeder invocation fails with exactly that storage error,
and the final table is the first k fixture records: the initial delete-all
and the earlier creates persist — no retry, no rollback. -/
theorem seed_aborts_on_create_failure (db : List Comapny)
    (create : Nat → Comapny → Except String Unit) (k : Nat) (msg : String)
    (hk : k < Command.companies.length)
    (hok : ∀ i (hi : i < Command.companies.length), i < k →
      create i (Command.companies[i]) = Except.ok ())
    (hfail : create k (Command.companies[k]) = Except.error msg) :
    Command.handleFallible db create =
      (Except.error msg, Command.companies.take k) := by
  have h := createLoop_error create msg Command.companies k 0 [] hk
    (fun i hi hik => by simpa using hok i hi hik)
    (by simpa using hfail)
  simpa [Command.handleFallible] using h

/-- C9 witness: a create that fails on its third call (index 2) leaves the
first two fixture records in place and aborts with the storage error. -/
theorem seed_aborts_on_create_failure_witness :
    Command.handleFallible []
        (fun i _ => if i < 2 then Except.ok () else Except.error ("IntegrityError")) =
      (Except.error ("IntegrityError"), Command.companies.take 2) :=
  seed_aborts_on_create_failure []
    (fun i _ => if i < 2 then Except.ok () else Except.error ("IntegrityError"))
    2 ("IntegrityError") (by decide) (by decide) (by decide)

/-- C10: the home handler binds the imported `Allcompanies` view but never
consumes it — two environments differing only in the imported view object
produce identical results — yet a failing views import diverts the request
to the debug fallback even when the model import, the query and the listing
would all succeed. -/
theorem home_view_import_gates_success (r : Request) (sp : List String)
    (v₁ v₂ : String) (cs : List Comapny) (cw : String) (l : List String)
    (m : String) :
    home_view r ⟨sp, Except.ok v₁, Except.ok (), Except.ok cs, cw, Except.ok l⟩ =
      home_view r ⟨sp, Except.ok v₂, Except.ok (), Except.ok cs, cw, Except.ok l⟩ ∧
    (home_view r ⟨sp, Except.ok v₁, Except.ok (), Except.ok cs, cw, Except.ok l⟩).1 =
      Except.ok ⟨200, companyListHtml cs⟩ ∧
    (home_view r ⟨sp, Except.error m, Except.ok (), Except.ok cs, cw, Except.ok l⟩).1 =
      Except.ok ⟨200, debugBody m (ensureAppPath sp) cw l⟩ :=
  ⟨rfl, rfl, rfl⟩
